import Mathlib

/-!
Verification of the opentelemetry Kafka JSON exporter.

This file is a shallow embedding of the two source files

  src/opentelemetry/exporter/kafka/json/__init__.py      (KafkaExporter)
  src/opentelemetry/exporter/kafka/json/v1/__init__.py   (JsonV1Encoder)

together with the parts of the repository that those files import from
`opentelemetry.exporter.kafka.encoder` and that are not part of the
source snapshot; those parts are modelled from the specification and
each such definition carries a doc comment saying so.

Python dictionaries are modelled as association lists with unique keys
(`Doc`), where assignment and `update` replace existing bindings in
place; machine-level concerns (JSON byte serialization, sockets,
logging) are outside the claims and are not modelled.  The broker
client (`confluent_kafka.Producer`) is an external collaborator and is
modelled at its boundary: a delivery oracle gives, for every batch
position, the delivery error (`none` for success) that a `produce`
call at that position would report, and the trace of `produce`/`flush`
calls issued to the client is returned alongside the export result.
-/

namespace KafkaJson

/-- JSON-like values appearing in encoded span documents. -/
inductive JValue where
  | s (v : String)
  | n (v : Int)
  | null
  | dict (v : List (String × String))
  | annots (v : List (Int × String))
deriving DecidableEq

/-- A Python dict with string keys, as an association list with unique keys. -/
abbrev Doc := List (String × JValue)

/-- Dictionary lookup: first binding for the key (keys are unique). -/
def dget : Doc → String → Option JValue
  | [], _ => none
  | p :: rest, k => if p.1 = k then some p.2 else dget rest k

/-- Python dict assignment `d[k] = v`: replace the binding in place if the
key is present, otherwise append the new binding. -/
def dinsert : Doc → String → JValue → Doc
  | [], k, v => [(k, v)]
  | p :: rest, k, v => if p.1 = k then (k, v) :: rest else p :: dinsert rest k v

/-- Python `d.update(kvs)`: assign every binding of `kvs` into `d`, in order. -/
def updateDoc (d : Doc) (kvs : List (String × JValue)) : Doc :=
  kvs.foldl (fun acc kv => dinsert acc kv.1 kv.2) d

/-- The value of the last binding of `k` in a key-value list; this is the
value a Python dict built from (or updated with) that list gives `k`. -/
def lastVal {α : Type} : List (String × α) → String → Option α
  | [], _ => none
  | p :: rest, k => (lastVal rest k).or (if p.1 = k then some p.2 else none)

/-- Whether a document contains a binding for the key. -/
def hasKey (d : Doc) (k : String) : Bool := (dget d k).isSome

/-- Lowercase hexadecimal digit. -/
def hexChar (n : Nat) : Char :=
  if n < 10 then Char.ofNat (48 + n) else Char.ofNat (87 + n)

/-- A natural number printed as exactly `w` lowercase hex digits, zero padded
(the Python format spec `0{w}x` for values in range). -/
def toHexPadded (w n : Nat) : String :=
  String.mk ((List.range w).map (fun i => hexChar (n / 16 ^ (w - 1 - i) % 16)))

/-- Modelled from the spec: the base-encoder helper `_encode_trace_id` is part
of `opentelemetry.exporter.kafka.encoder`, which is not under src/; the spec
says a 128-bit trace id is encoded as a lowercase 32-hex-digit string, zero
padded. -/
def encode_trace_id (tid : Nat) : String := toHexPadded 32 tid

/-- Modelled from the spec: the base-encoder helper `_encode_span_id` is part
of `opentelemetry.exporter.kafka.encoder`, which is not under src/; the spec
says a 64-bit span id is encoded as a lowercase 16-hex-digit string. -/
def encode_span_id (sid : Nat) : String := toHexPadded 16 sid

/-- `opentelemetry.trace.format_trace_id`, the SDK helper used as the Kafka
message key: the trace id as a lowercase 32-hex-digit string. -/
def format_trace_id (tid : Nat) : String := toHexPadded 32 tid

/-- Modelled from the spec: the base-encoder helper `_nsec_to_usec_round` is
part of `opentelemetry.exporter.kafka.encoder`, which is not under src/; the
spec says nanosecond timestamps become microseconds by integer division with
rounding to nearest, and allows either half-up or half-even as the tie policy.
We use round-half-up with floor division, consistently. -/
def nsec_to_usec_round (nsec : Int) : Int := (nsec + 500).fdiv 1000

/-- Span kinds of the tracing SDK. -/
inductive SpanKind where
  | INTERNAL
  | SERVER
  | CLIENT
  | PRODUCER
  | CONSUMER
deriving DecidableEq

/-- Status codes of the tracing SDK (`status.status_code`). -/
inductive StatusCode where
  | UNSET
  | OK
  | ERROR
deriving DecidableEq

/-- The `.name` of an SDK status code. -/
def StatusCode.statusName : StatusCode → String
  | StatusCode.UNSET => "UNSET"
  | StatusCode.OK => "OK"
  | StatusCode.ERROR => "ERROR"

/-- The `.value` of an SDK status code. -/
def StatusCode.statusValue : StatusCode → Int
  | StatusCode.UNSET => 0
  | StatusCode.OK => 1
  | StatusCode.ERROR => 2

/-- The span context: identifiers and trace state. -/
structure SpanContext where
  trace_id : Nat
  span_id : Nat
  trace_state : List (String × String)
deriving DecidableEq

/-- A span event (name and nanosecond timestamp). -/
structure SpanEvent where
  name : String
  timestamp : Int
deriving DecidableEq

/-- The SDK span object, restricted to the fields the exporter reads.
`parent` holds the span id of the parent context when there is one;
`resource_service_name` is the `service.name` attribute of the owning
resource, when set.  Attribute values are already coerced to strings,
which is the form the tag-extraction helper produces. -/
structure Span where
  name : String
  context : SpanContext
  parent : Option Nat
  kind : SpanKind
  start_time : Int
  end_time : Option Int
  status : StatusCode
  attributes : List (String × String)
  events : List SpanEvent
  resource_service_name : Option String
deriving DecidableEq

/-- `NodeEndpoint`: the network identity of the exporting process. -/
structure NodeEndpoint where
  ipv4 : Option String
  ipv6 : Option String
  port : Option Int
  service_name : Option String
deriving DecidableEq

/-- The process environment, as a partial map from variable names to values. -/
abbrev Env := String → Option String

/-- The JSON v1 encoder; its only configuration is the tag-length bound. -/
structure JsonV1Encoder where
  max_tag_value_length : Option Nat
deriving DecidableEq

/-- `JsonV1Encoder.SPAN_KIND_MAP`: INTERNAL maps to `None`, the four remote
kinds map to their literal names. -/
def SPAN_KIND_MAP : SpanKind → Option String
  | SpanKind.INTERNAL => none
  | SpanKind.SERVER => some ("SERVER")
  | SpanKind.CLIENT => some ("CLIENT")
  | SpanKind.PRODUCER => some ("PRODUCER")
  | SpanKind.CONSUMER => some ("CONSUMER")

/-- Python `"{}".format(x)` on an optional string: `None` prints as `None`. -/
def pyFormatOpt : Option String → String
  | none => "None"
  | some s => s

/-- Modelled from the spec: the base-encoder helper `_extract_tags_from_dict`
is part of `opentelemetry.exporter.kafka.encoder`, which is not under src/;
the spec says attribute values are coerced to strings and each value is
truncated to `max_tag_value_length` characters, with no truncation when the
bound is unset or zero, keys unchanged. -/
def truncateTag (bound : Option Nat) (v : String) : String :=
  match bound with
  | some m => if m = 0 then v else v.take m
  | none => v

/-- Modelled from the spec: `_extract_tags_from_dict`, see `truncateTag`. -/
def extract_tags_from_dict (enc : JsonV1Encoder) (attrs : List (String × String)) : List (String × JValue) :=
  attrs.map (fun kv => (kv.1, JValue.s (truncateTag enc.max_tag_value_length kv.2)))

/-- Modelled from the spec: the base-encoder helper `_extract_tags_from_span`
is not under src/; per the spec it flattens the span attributes into
string-keyed tag entries. -/
def extract_tags_from_span (enc : JsonV1Encoder) (span : Span) : List (String × JValue) :=
  extract_tags_from_dict enc span.attributes

/-- Modelled from the spec: the base-encoder helper
`_extract_annotations_from_events` is not under src/; per the spec each event
becomes a record of its microsecond timestamp (same rounding as elsewhere)
and its name, and nothing is emitted for an empty event sequence. -/
def extract_annots (events : List SpanEvent) : List (Int × String) :=
  events.map (fun e => (nsec_to_usec_round e.timestamp, e.name))

/-- Modelled from the spec: the base-encoder helper `_get_parent_id` is not
under src/; per the spec it yields the span id of the parent context when
there is a parent and nothing otherwise. -/
def get_parent_id (parent : Option Nat) : Option Nat := parent

/-- Modelled from the spec: the base-encoder helper `_encode_local_endpoint`
is not under src/; per the spec the NetworkIdentity fields ipv4, ipv6, port
and service_name are merged into the document, omitting unset fields. -/
def encode_local_endpoint (node : NodeEndpoint) : List (String × JValue) :=
  (match node.ipv4 with
   | some v => [(("ipv4" : String), JValue.s v)]
   | none => [])
  ++ (match node.ipv6 with
      | some v => [(("ipv6" : String), JValue.s v)]
      | none => [])
  ++ (match node.port with
      | some v => [(("port" : String), JValue.n v)]
      | none => [])
  ++ (match node.service_name with
      | some v => [(("service_name" : String), JValue.s v)]
      | none => [])

/-- The dict literal built at the top of `JsonV1Encoder._encode_span`,
in source order.  The duplicate `location.site` entry of the source literal
is kept; building the dict applies last-wins, exactly as Python does. -/
def literalEntries (env : Env) (user : String) (span : Span) : List (String × JValue) :=
  [ (("name" : String), JValue.s span.name),
    (("trace_id" : String), JValue.s (encode_trace_id span.context.trace_id)),
    (("span_id" : String), JValue.s (encode_span_id span.context.span_id)),
    (("trace_state" : String), JValue.dict span.context.trace_state),
    (("parent_id" : String),
      match span.parent with
      | some p => JValue.s (encode_span_id p)
      | none => JValue.null),
    (("status.status_code" : String), JValue.s span.status.statusName),
    (("status.status_value" : String), JValue.n span.status.statusValue),
    (("location.site" : String), JValue.s ((env ("SITE")).getD ("unknown"))),
    (("timestamp" : String), JValue.n (nsec_to_usec_round span.start_time)),
    (("start_time" : String), JValue.n (nsec_to_usec_round span.start_time)),
    (("enduser.id" : String), JValue.s user),
    (("location.site" : String), JValue.s ((env ("SITE")).getD ("unknown"))),
    (("deployment.environment" : String), JValue.s ((env ("INSTALLTYPE")).getD ("staging"))),
    (("kind" : String), JValue.s ("SpanKind." ++ pyFormatOpt (SPAN_KIND_MAP span.kind))) ]

/-- The `if span.end_time:` block of `_encode_span`: Python truthiness, so the
two fields are added only when `end_time` is non-null and nonzero; `duration`
is the rounding of the nanosecond difference. -/
def withEndTime (span : Span) (d : Doc) : Doc :=
  match span.end_time with
  | some t =>
    if t = 0 then d
    else
      dinsert (dinsert d ("end_time") (JValue.n (nsec_to_usec_round t)))
        ("duration") (JValue.n (nsec_to_usec_round (t - span.start_time)))
  | none => d

/-- `if tags: encoded_span.update(tags)`. -/
def withTagList (tags : List (String × JValue)) (d : Doc) : Doc :=
  if tags = [] then d else updateDoc d tags

/-- `if annotations: encoded_span["annotations"] = annotations`. -/
def withAnnots (span : Span) (d : Doc) : Doc :=
  if span.events = [] then d
  else dinsert d ("annotations") (JValue.annots (extract_annots span.events))

/-- The `parent_id = self._get_parent_id(span.parent)` block: when a parent
exists, its span id is assigned under the camel-case key `parentId`. -/
def withParentId (span : Span) (d : Doc) : Doc :=
  match get_parent_id span.parent with
  | some p => dinsert d ("parentId") (JValue.s (encode_span_id p))
  | none => d

/-- `JsonV1Encoder._encode_span`: the dict literal, then in source order the
local-endpoint merge, the end-time block, the span-tag update, the
annotations block, the parentId block and the final attribute update. -/
def encode_span (enc : JsonV1Encoder) (env : Env) (user : String) (span : Span) (ep : List (String × JValue)) : Doc :=
  withTagList (extract_tags_from_dict enc span.attributes)
    (withParentId span
      (withAnnots span
        (withTagList (extract_tags_from_span enc span)
          (withEndTime span
            (updateDoc (updateDoc [] (literalEntries env user span)) ep)))))

/-- Modelled from the spec: `Encoder.serialize` of the base encoder is not
under src/; per the spec it encodes one span against the local
NetworkIdentity into the document that gets published.  The JSON byte dump is
outside the claims, so the document itself stands for the payload. -/
def serialize (enc : JsonV1Encoder) (env : Env) (user : String) (span : Span) (node : NodeEndpoint) : Doc :=
  encode_span enc env user span (encode_local_endpoint node)

/-- `SpanExportResult`. -/
inductive SpanExportResult where
  | SUCCESS
  | FAILURE
deriving DecidableEq

/-- What an `export` call does: `ret r` is a normal return (Python returns
`None` on the bare `return` of the empty-config branch, hence the option);
`attrError` is the `AttributeError` raised when the debug f-string of the
empty-config branch reads the undefined attribute `self.kafka_nodes`. -/
inductive ExportOutcome where
  | ret (r : Option SpanExportResult)
  | attrError
deriving DecidableEq

/-- Calls issued to the broker client. -/
inductive BrokerCall where
  | produce (topic key : String) (value : Doc)
  | flush
deriving DecidableEq

/-- `KafkaExporter`, after construction. -/
structure KafkaExporter where
  kafkatopic : String
  kafkanodes : List String
  encoder : JsonV1Encoder
  local_node : NodeEndpoint
  closed : Bool
deriving DecidableEq

/-- `DEFAULT_KAFKATOPIC`. -/
def DEFAULT_KAFKATOPIC : String := "unknown_topic"

/-- `DEFAULT_KAFKANODES`. -/
def DEFAULT_KAFKANODES : String := "localhost:9092"

/-- Python `a or b` for an optional string `a`: the environment lookup
falls through to `b` when the variable is missing or empty. -/
def pyOrS (a : Option String) (b : String) : String :=
  match a with
  | some s => if s = "" then b else s
  | none => b

/-- `KafkaExporter.__init__`, restricted to the topic/node/encoder state the
claims are about.  `envTopic` and `envNodes` are the values of
`OTEL_EXPORTER_KAFKA_TOPIC` and `OTEL_EXPORTER_KAFKA_NODES` in the process
environment.  The socket-based NodeEndpoint resolution is an external
collaborator and the resolved endpoint is passed in. -/
def mkKafkaExporter (kafkatopic : Option String) (kafkanodes : Option (List String))
    (envTopic envNodes : Option String) (max_tag_value_length : Option Nat)
    (local_node : NodeEndpoint) : KafkaExporter :=
  { kafkatopic :=
      match kafkatopic with
      | some t => t
      | none => pyOrS envTopic DEFAULT_KAFKATOPIC
  , kafkanodes :=
      match kafkanodes with
      | some ns => ns
      | none => ((pyOrS envNodes DEFAULT_KAFKANODES).splitOn (",")).map String.trim
  , encoder := { max_tag_value_length := max_tag_value_length }
  , local_node := local_node
  , closed := false }

/-- `KafkaExporter.shutdown`: sets the closed flag; idempotent. -/
def shutdown (ex : KafkaExporter) : KafkaExporter := { ex with closed := true }

/-- The per-span loop of `KafkaExporter.export`.  `deliver i` is the delivery
error the broker client reports for the `produce` call at batch position `i`
(`none` means success); Python evaluates `rv or producer.produce(...)`
left to right, so once `rv` is a non-null error no further `produce` happens,
while `producer.flush()` still runs every iteration.  When topic or nodes are
empty, the debug f-string reads the undefined attribute `self.kafka_nodes`
and the call raises `AttributeError`. -/
def exportLoop (ex : KafkaExporter) (env : Env) (user : String) (node : NodeEndpoint)
    (deliver : Nat → Option String) :
    List Span → Nat → Option String → List BrokerCall → ExportOutcome × List BrokerCall
  | [], _, rv, calls =>
    (ExportOutcome.ret (some (if rv.isSome then SpanExportResult.FAILURE else SpanExportResult.SUCCESS)), calls)
  | span :: rest, i, rv, calls =>
    let data := serialize ex.encoder env user span node
    if ex.kafkanodes = [] ∨ ex.kafkatopic = "" then
      (ExportOutcome.attrError, calls)
    else
      let produced :=
        if rv.isSome then []
        else [BrokerCall.produce ex.kafkatopic (format_trace_id span.context.trace_id) data]
      let rv2 := if rv.isSome then rv else deliver i
      exportLoop ex env user node deliver rest (i + 1) rv2 (calls ++ produced ++ [BrokerCall.flush])

/-- `KafkaExporter.export`: the closed-state precondition check, the
service-name overwrite from the first span of a non-empty batch (Python
truthiness: only a non-empty name overwrites), then the per-span loop. -/
def exportSpans (ex : KafkaExporter) (env : Env) (user : String)
    (deliver : Nat → Option String) (spans : List Span) : ExportOutcome × List BrokerCall :=
  if ex.closed then (ExportOutcome.ret (some SpanExportResult.FAILURE), [])
  else
    let node :=
      match spans with
      | [] => ex.local_node
      | s :: _ =>
        match s.resource_service_name with
        | some sn => if sn = "" then ex.local_node else { ex.local_node with service_name := some sn }
        | none => ex.local_node
    exportLoop ex env user node deliver spans 0 none []

/-- Number of `produce` calls in a broker-call trace. -/
def produceCount : List BrokerCall → Nat
  | [] => 0
  | BrokerCall.produce _ _ _ :: rest => produceCount rest + 1
  | BrokerCall.flush :: rest => produceCount rest

/-- How many batch positions, starting at `i`, get a `produce` call out of
`n` remaining spans: every span up to and including the first one whose
delivery reports an error. -/
def attemptCount (deliver : Nat → Option String) : Nat → Nat → Nat
  | _, 0 => 0
  | i, n + 1 => if (deliver i).isSome then 1 else attemptCount deliver (i + 1) n + 1

/-- Whether some of the `n` batch positions starting at `i` reports a
delivery error. -/
def anyErr (deliver : Nat → Option String) : Nat → Nat → Bool
  | _, 0 => false
  | i, n + 1 => (deliver i).isSome || anyErr deliver (i + 1) n

/-- The resolution rule exactly as the claim words it: the first non-empty
value among explicit constructor argument, environment variable and
hard-coded default.  Stated for comparison with `mkKafkaExporter`. -/
def specFirstNonEmptyStr (arg envv : Option String) (dflt : String) : String :=
  match arg with
  | some t =>
    if t = "" then
      match envv with
      | some e => if e = "" then dflt else e
      | none => dflt
    else t
  | none =>
    match envv with
    | some e => if e = "" then dflt else e
    | none => dflt

/-! Concrete fixtures used by witnesses and counterexamples. -/

/-- An empty process environment. -/
def env0 : Env := fun _ => none

/-- An endpoint with nothing resolved. -/
def node0 : NodeEndpoint := { ipv4 := none, ipv6 := none, port := none, service_name := none }

/-- An encoder with no tag-length bound. -/
def enc0 : JsonV1Encoder := { max_tag_value_length := none }

/-- A concrete span context. -/
def ctx1 : SpanContext := { trace_id := 1, span_id := 2, trace_state := [] }

/-- A concrete parentless CLIENT span with start 600 ns and end 1200 ns. -/
def span1 : Span :=
  { name := "checkout", context := ctx1, parent := none, kind := SpanKind.CLIENT,
    start_time := 600, end_time := some 1200, status := StatusCode.OK,
    attributes := [], events := [], resource_service_name := none }

/-- A concrete span with a parent. -/
def span2 : Span := { span1 with parent := some 77 }

/-- A concrete span whose end time is the zero timestamp. -/
def spanZeroEnd : Span := { span1 with end_time := some 0 }

/-- A concrete span that sets `location.site` explicitly as an attribute. -/
def span3 : Span := { span1 with attributes := [("location.site", "sjc")] }

/-- An open exporter with topic and nodes configured. -/
def exporterOpen : KafkaExporter :=
  { kafkatopic := "traces", kafkanodes := ["broker:9092"], encoder := enc0,
    local_node := node0, closed := false }

/-- An open exporter whose topic resolved empty. -/
def exporterNoTopic : KafkaExporter := { exporterOpen with kafkatopic := "" }

/-- A delivery oracle that always succeeds. -/
def deliver0 : Nat → Option String := fun _ => none

/-- A delivery oracle with an error at batch position 1 only. -/
def deliverErr1 : Nat → Option String :=
  fun i => if i = 1 then some ("delivery error") else none

/-! Dictionary lemmas. -/

theorem dget_dinsert_self (d : Doc) (k : String) (v : JValue) :
    dget (dinsert d k v) k = some v := by
  induction d with
  | nil => simp [dinsert, dget]
  | cons p rest ih =>
    by_cases h : p.1 = k
    · simp [dinsert, h, dget]
    · simp [dinsert, h, dget, ih]

theorem dget_dinsert_ne (d : Doc) (k k' : String) (v : JValue) (h : k ≠ k') :
    dget (dinsert d k' v) k = dget d k := by
  have hks : ¬ k' = k := fun he => h he.symm
  induction d with
  | nil => simp [dinsert, dget, hks]
  | cons p rest ih =>
    by_cases hp : p.1 = k'
    · have hpk : ¬ p.1 = k := by
        intro he
        exact h (he.symm.trans hp)
      simp only [dinsert, if_pos hp, dget, if_neg hks, if_neg hpk]
    · simp only [dinsert, if_neg hp, dget]
      by_cases hk : p.1 = k
      · rw [if_pos hk, if_pos hk]
      · rw [if_neg hk, if_neg hk, ih]

theorem updateDoc_nil (d : Doc) : updateDoc d [] = d := rfl

theorem updateDoc_cons (d : Doc) (p : String × JValue) (rest : List (String × JValue)) :
    updateDoc d (p :: rest) = updateDoc (dinsert d p.1 p.2) rest := rfl

theorem dget_updateDoc (kvs : List (String × JValue)) :
    ∀ (d : Doc) (k : String),
      dget (updateDoc d kvs) k = (lastVal kvs k).or (dget d k) := by
  induction kvs with
  | nil => intro d k; simp [updateDoc, lastVal]
  | cons p rest ih =>
    intro d k
    rw [updateDoc_cons, ih]
    by_cases hk : p.1 = k
    · subst hk
      rw [dget_dinsert_self]
      simp [lastVal, Option.or_assoc]
    · rw [dget_dinsert_ne d k p.1 p.2 (fun he => hk he.symm)]
      simp [lastVal, hk]

theorem dget_updateDoc_nil_doc (kvs : List (String × JValue)) (k : String) :
    dget (updateDoc [] kvs) k = lastVal kvs k := by
  rw [dget_updateDoc]
  simp [dget]

theorem dget_updateDoc_of_lastVal_none (d : Doc) (kvs : List (String × JValue)) (k : String)
    (h : lastVal kvs k = none) : dget (updateDoc d kvs) k = dget d k := by
  rw [dget_updateDoc, h]
  simp

theorem lastVal_append {α : Type} (a b : List (String × α)) (k : String) :
    lastVal (a ++ b) k = (lastVal b k).or (lastVal a k) := by
  induction a with
  | nil => simp [lastVal]
  | cons p rest ih => simp [lastVal, ih, Option.or_assoc]

theorem lastVal_map_extract (enc : JsonV1Encoder) (attrs : List (String × String)) (k : String) :
    lastVal (extract_tags_from_dict enc attrs) k =
      (lastVal attrs k).map (fun v => JValue.s (truncateTag enc.max_tag_value_length v)) := by
  induction attrs with
  | nil => rfl
  | cons p rest ih =>
    simp only [extract_tags_from_dict, List.map_cons, lastVal] at ih ⊢
    rw [ih]
    by_cases hk : p.1 = k <;> cases h : lastVal rest k <;> simp [hk]

/-! Per-stage lookup lemmas for `encode_span`. -/

theorem dget_withTagList_none (tags : List (String × JValue)) (d : Doc) (k : String)
    (h : lastVal tags k = none) : dget (withTagList tags d) k = dget d k := by
  unfold withTagList
  by_cases he : tags = []
  · rw [if_pos he]
  · rw [if_neg he]
    exact dget_updateDoc_of_lastVal_none d tags k h

theorem dget_withTagList_last (tags : List (String × JValue)) (d : Doc) (k : String) (v : JValue)
    (h : lastVal tags k = some v) : dget (withTagList tags d) k = some v := by
  have hne : tags ≠ [] := by
    intro he
    rw [he] at h
    simp [lastVal] at h
  unfold withTagList
  rw [if_neg hne, dget_updateDoc, h]
  rfl

theorem dget_withEndTime_ne (span : Span) (d : Doc) (k : String)
    (h1 : k ≠ "end_time") (h2 : k ≠ "duration") :
    dget (withEndTime span d) k = dget d k := by
  cases he : span.end_time with
  | none => simp only [withEndTime, he]
  | some t =>
    by_cases ht : t = 0
    · simp only [withEndTime, he]
      rw [if_pos ht]
    · simp only [withEndTime, he]
      rw [if_neg ht, dget_dinsert_ne _ _ _ _ h2, dget_dinsert_ne _ _ _ _ h1]

theorem dget_withEndTime_end (span : Span) (d : Doc) :
    dget (withEndTime span d) ("end_time") =
      match span.end_time with
      | some t =>
        if t = 0 then dget d ("end_time") else some (JValue.n (nsec_to_usec_round t))
      | none => dget d ("end_time") := by
  cases he : span.end_time with
  | none => simp only [withEndTime, he]
  | some t =>
    by_cases ht : t = 0
    · simp only [withEndTime, he]
      rw [if_pos ht, if_pos ht]
    · simp only [withEndTime, he]
      rw [if_neg ht, if_neg ht, dget_dinsert_ne _ _ _ _ (by decide), dget_dinsert_self]

theorem dget_withEndTime_dur (span : Span) (d : Doc) :
    dget (withEndTime span d) ("duration") =
      match span.end_time with
      | some t =>
        if t = 0 then dget d ("duration")
        else some (JValue.n (nsec_to_usec_round (t - span.start_time)))
      | none => dget d ("duration") := by
  cases he : span.end_time with
  | none => simp only [withEndTime, he]
  | some t =>
    by_cases ht : t = 0
    · simp only [withEndTime, he]
      rw [if_pos ht, if_pos ht]
    · simp only [withEndTime, he]
      rw [if_neg ht, if_neg ht, dget_dinsert_self]

theorem dget_withAnnots_ne (span : Span) (d : Doc) (k : String) (h : k ≠ "annotations") :
    dget (withAnnots span d) k = dget d k := by
  unfold withAnnots
  by_cases he : span.events = []
  · rw [if_pos he]
  · rw [if_neg he, dget_dinsert_ne _ _ _ _ h]

theorem dget_withParentId_ne (span : Span) (d : Doc) (k : String) (h : k ≠ "parentId") :
    dget (withParentId span d) k = dget d k := by
  cases hp : span.parent with
  | none => simp only [withParentId, get_parent_id, hp]
  | some p =>
    simp only [withParentId, get_parent_id, hp]
    rw [dget_dinsert_ne _ _ _ _ h]

theorem dget_withParentId_self (span : Span) (d : Doc) :
    dget (withParentId span d) ("parentId") =
      match span.parent with
      | some p => some (JValue.s (encode_span_id p))
      | none => dget d ("parentId") := by
  cases hp : span.parent with
  | none => simp only [withParentId, get_parent_id, hp]
  | some p =>
    simp only [withParentId, get_parent_id, hp]
    rw [dget_dinsert_self]

theorem lastVal_endpoint_none (node : NodeEndpoint) (k : String)
    (h1 : k ≠ "ipv4") (h2 : k ≠ "ipv6") (h3 : k ≠ "port") (h4 : k ≠ "service_name") :
    lastVal (encode_local_endpoint node) k = none := by
  have n1 : ¬ ("ipv4" : String) = k := fun he => h1 he.symm
  have n2 : ¬ ("ipv6" : String) = k := fun he => h2 he.symm
  have n3 : ¬ ("port" : String) = k := fun he => h3 he.symm
  have n4 : ¬ ("service_name" : String) = k := fun he => h4 he.symm
  unfold encode_local_endpoint
  rw [lastVal_append, lastVal_append, lastVal_append]
  cases node.ipv4 <;> cases node.ipv6 <;> cases node.port <;> cases node.service_name <;>
    simp [lastVal, n1, n2, n3, n4]



/-! Presence lemmas: a binding survives every later update. -/

theorem isSome_dget_dinsert (d : Doc) (k k' : String) (v : JValue)
    (h : (dget d k).isSome = true) : (dget (dinsert d k' v) k).isSome = true := by
  by_cases hk : k' = k
  · subst hk
    rw [dget_dinsert_self]
    rfl
  · rw [dget_dinsert_ne _ _ _ _ (fun he => hk he.symm)]
    exact h

theorem isSome_dget_updateDoc (d : Doc) (kvs : List (String × JValue)) (k : String)
    (h : (dget d k).isSome = true) : (dget (updateDoc d kvs) k).isSome = true := by
  rw [dget_updateDoc]
  cases hl : lastVal kvs k <;> simp [h]

theorem isSome_dget_withTagList (tags : List (String × JValue)) (d : Doc) (k : String)
    (h : (dget d k).isSome = true) : (dget (withTagList tags d) k).isSome = true := by
  unfold withTagList
  by_cases he : tags = []
  · rw [if_pos he]
    exact h
  · rw [if_neg he]
    exact isSome_dget_updateDoc d tags k h

theorem isSome_dget_withEndTime (span : Span) (d : Doc) (k : String)
    (h : (dget d k).isSome = true) : (dget (withEndTime span d) k).isSome = true := by
  cases he : span.end_time with
  | none =>
    simp only [withEndTime, he]
    exact h
  | some t =>
    by_cases ht : t = 0
    · simp only [withEndTime, he]
      rw [if_pos ht]
      exact h
    · simp only [withEndTime, he]
      rw [if_neg ht]
      exact isSome_dget_dinsert _ _ _ _ (isSome_dget_dinsert _ _ _ _ h)

theorem isSome_dget_withAnnots (span : Span) (d : Doc) (k : String)
    (h : (dget d k).isSome = true) : (dget (withAnnots span d) k).isSome = true := by
  unfold withAnnots
  by_cases he : span.events = []
  · rw [if_pos he]
    exact h
  · rw [if_neg he]
    exact isSome_dget_dinsert _ _ _ _ h

theorem isSome_dget_withParentId (span : Span) (d : Doc) (k : String)
    (h : (dget d k).isSome = true) : (dget (withParentId span d) k).isSome = true := by
  cases hp : span.parent with
  | none => simpa only [withParentId, get_parent_id, hp] using h
  | some p =>
    simp only [withParentId, get_parent_id, hp]
    exact isSome_dget_dinsert _ _ _ _ h

theorem isSome_dget_serialize_of_literal (enc : JsonV1Encoder) (env : Env) (user : String)
    (span : Span) (node : NodeEndpoint) (k : String)
    (h : (lastVal (literalEntries env user span) k).isSome = true) :
    (dget (serialize enc env user span node) k).isSome = true := by
  unfold serialize encode_span extract_tags_from_span
  apply isSome_dget_withTagList
  apply isSome_dget_withParentId
  apply isSome_dget_withAnnots
  apply isSome_dget_withTagList
  apply isSome_dget_withEndTime
  apply isSome_dget_updateDoc
  rw [dget_updateDoc_nil_doc]
  exact h

/-! Lookup through the whole of `serialize`. -/

theorem dget_serialize_untouched (enc : JsonV1Encoder) (env : Env) (user : String) (span : Span)
    (node : NodeEndpoint) (k : String)
    (ha : lastVal span.attributes k = none)
    (h1 : k ≠ "annotations") (h2 : k ≠ "parentId")
    (h3 : k ≠ "end_time") (h4 : k ≠ "duration")
    (h5 : k ≠ "ipv4") (h6 : k ≠ "ipv6") (h7 : k ≠ "port") (h8 : k ≠ "service_name") :
    dget (serialize enc env user span node) k = lastVal (literalEntries env user span) k := by
  have htag : lastVal (extract_tags_from_dict enc span.attributes) k = none := by
    rw [lastVal_map_extract, ha]
    rfl
  unfold serialize encode_span extract_tags_from_span
  rw [dget_withTagList_none _ _ _ htag]
  rw [dget_withParentId_ne _ _ _ h2]
  rw [dget_withAnnots_ne _ _ _ h1]
  rw [dget_withTagList_none _ _ _ htag]
  rw [dget_withEndTime_ne _ _ _ h3 h4]
  rw [dget_updateDoc, lastVal_endpoint_none node k h5 h6 h7 h8, dget_updateDoc_nil_doc]
  simp

theorem dget_serialize_attr (enc : JsonV1Encoder) (env : Env) (user : String) (span : Span)
    (node : NodeEndpoint) (k : String) (v : String)
    (hv : lastVal span.attributes k = some v) :
    dget (serialize enc env user span node) k =
      some (JValue.s (truncateTag enc.max_tag_value_length v)) := by
  have htag : lastVal (extract_tags_from_dict enc span.attributes) k =
      some (JValue.s (truncateTag enc.max_tag_value_length v)) := by
    rw [lastVal_map_extract, hv]
    rfl
  unfold serialize encode_span
  exact dget_withTagList_last _ _ _ _ htag

theorem dget_withEndTime_end_of_none (span : Span) (d : Doc)
    (h : dget d ("end_time") = none) :
    dget (withEndTime span d) ("end_time") =
      match span.end_time with
      | some t => if t = 0 then none else some (JValue.n (nsec_to_usec_round t))
      | none => none := by
  rw [dget_withEndTime_end]
  cases span.end_time with
  | none => exact h
  | some t =>
    by_cases ht : t = 0
    · simp [ht, h]
    · simp [ht]

theorem dget_withEndTime_dur_of_none (span : Span) (d : Doc)
    (h : dget d ("duration") = none) :
    dget (withEndTime span d) ("duration") =
      match span.end_time with
      | some t => if t = 0 then none else some (JValue.n (nsec_to_usec_round (t - span.start_time)))
      | none => none := by
  rw [dget_withEndTime_dur]
  cases span.end_time with
  | none => exact h
  | some t =>
    by_cases ht : t = 0
    · simp [ht, h]
    · simp [ht]

theorem dget_withParentId_self_of_none (span : Span) (d : Doc)
    (h : dget d ("parentId") = none) :
    dget (withParentId span d) ("parentId") =
      match span.parent with
      | some p => some (JValue.s (encode_span_id p))
      | none => none := by
  rw [dget_withParentId_self]
  cases span.parent with
  | none => exact h
  | some p => rfl

theorem dget_serialize_end_time (enc : JsonV1Encoder) (env : Env) (user : String) (span : Span)
    (node : NodeEndpoint) (ha : lastVal span.attributes ("end_time") = none) :
    dget (serialize enc env user span node) ("end_time") =
      match span.end_time with
      | some t => if t = 0 then none else some (JValue.n (nsec_to_usec_round t))
      | none => none := by
  have htag : lastVal (extract_tags_from_dict enc span.attributes) ("end_time") = none := by
    rw [lastVal_map_extract, ha]
    rfl
  unfold serialize encode_span extract_tags_from_span
  rw [dget_withTagList_none _ _ _ htag]
  rw [dget_withParentId_ne _ _ _ (by decide)]
  rw [dget_withAnnots_ne _ _ _ (by decide)]
  rw [dget_withTagList_none _ _ _ htag]
  refine dget_withEndTime_end_of_none span _ ?_
  rw [dget_updateDoc,
    lastVal_endpoint_none node _ (by decide) (by decide) (by decide) (by decide),
    dget_updateDoc_nil_doc]
  rfl

theorem dget_serialize_duration (enc : JsonV1Encoder) (env : Env) (user : String) (span : Span)
    (node : NodeEndpoint) (ha : lastVal span.attributes ("duration") = none) :
    dget (serialize enc env user span node) ("duration") =
      match span.end_time with
      | some t => if t = 0 then none else some (JValue.n (nsec_to_usec_round (t - span.start_time)))
      | none => none := by
  have htag : lastVal (extract_tags_from_dict enc span.attributes) ("duration") = none := by
    rw [lastVal_map_extract, ha]
    rfl
  unfold serialize encode_span extract_tags_from_span
  rw [dget_withTagList_none _ _ _ htag]
  rw [dget_withParentId_ne _ _ _ (by decide)]
  rw [dget_withAnnots_ne _ _ _ (by decide)]
  rw [dget_withTagList_none _ _ _ htag]
  refine dget_withEndTime_dur_of_none span _ ?_
  rw [dget_updateDoc,
    lastVal_endpoint_none node _ (by decide) (by decide) (by decide) (by decide),
    dget_updateDoc_nil_doc]
  rfl

theorem dget_serialize_parentId (enc : JsonV1Encoder) (env : Env) (user : String) (span : Span)
    (node : NodeEndpoint) (ha : lastVal span.attributes ("parentId") = none) :
    dget (serialize enc env user span node) ("parentId") =
      match span.parent with
      | some p => some (JValue.s (encode_span_id p))
      | none => none := by
  have htag : lastVal (extract_tags_from_dict enc span.attributes) ("parentId") = none := by
    rw [lastVal_map_extract, ha]
    rfl
  unfold serialize encode_span extract_tags_from_span
  rw [dget_withTagList_none _ _ _ htag]
  refine dget_withParentId_self_of_none span _ ?_
  rw [dget_withAnnots_ne _ _ _ (by decide)]
  rw [dget_withTagList_none _ _ _ htag]
  rw [dget_withEndTime_ne _ _ _ (by decide) (by decide)]
  rw [dget_updateDoc,
    lastVal_endpoint_none node _ (by decide) (by decide) (by decide) (by decide),
    dget_updateDoc_nil_doc]
  rfl

theorem length_toHexPadded (w n : Nat) : (toHexPadded w n).length = w := by
  simp [toHexPadded, String.length]

/-! Export-loop lemmas. -/

theorem produceCount_append (a b : List BrokerCall) :
    produceCount (a ++ b) = produceCount a + produceCount b := by
  induction a with
  | nil => simp [produceCount]
  | cons c rest ih =>
    cases c with
    | produce t k v =>
      simp [produceCount, ih]
      omega
    | flush => simp [produceCount, ih]

theorem anyErr_eq_true_iff (deliver : Nat → Option String) :
    ∀ (n i : Nat), anyErr deliver i n = true ↔ ∃ j, j < n ∧ (deliver (i + j)).isSome = true := by
  intro n
  induction n with
  | zero => intro i; simp [anyErr]
  | succ n ih =>
    intro i
    simp only [anyErr, Bool.or_eq_true]
    constructor
    · intro h
      rcases h with h1 | h2
      · exact ⟨0, Nat.succ_pos n, by simpa using h1⟩
      · rcases (ih (i + 1)).mp h2 with ⟨j, hj, hdj⟩
        refine ⟨j + 1, by omega, ?_⟩
        have he : i + (j + 1) = i + 1 + j := by omega
        rw [he]
        exact hdj
    · rintro ⟨j, hj, hdj⟩
      cases j with
      | zero => exact Or.inl (by simpa using hdj)
      | succ j' =>
        refine Or.inr ((ih (i + 1)).mpr ⟨j', by omega, ?_⟩)
        have he : i + 1 + j' = i + (j' + 1) := by omega
        rw [he]
        exact hdj

theorem exportLoop_fst (ex : KafkaExporter) (env : Env) (user : String) (node : NodeEndpoint)
    (deliver : Nat → Option String) (hn : ex.kafkanodes ≠ []) (ht : ex.kafkatopic ≠ "") :
    ∀ (spans : List Span) (i : Nat) (rv : Option String) (calls : List BrokerCall),
      (exportLoop ex env user node deliver spans i rv calls).1 =
        ExportOutcome.ret (some (if (rv.isSome || anyErr deliver i spans.length)
          then SpanExportResult.FAILURE else SpanExportResult.SUCCESS)) := by
  intro spans
  induction spans with
  | nil =>
    intro i rv calls
    simp [exportLoop, anyErr]
  | cons s rest ih =>
    intro i rv calls
    simp only [exportLoop]
    rw [if_neg (not_or.mpr ⟨hn, ht⟩)]
    rw [ih]
    cases rv with
    | some e => simp [anyErr]
    | none => simp [anyErr]

theorem exportLoop_produceCount (ex : KafkaExporter) (env : Env) (user : String)
    (node : NodeEndpoint) (deliver : Nat → Option String)
    (hn : ex.kafkanodes ≠ []) (ht : ex.kafkatopic ≠ "") :
    ∀ (spans : List Span) (i : Nat) (rv : Option String) (calls : List BrokerCall),
      produceCount (exportLoop ex env user node deliver spans i rv calls).2 =
        produceCount calls + (if rv.isSome then 0 else attemptCount deliver i spans.length) := by
  intro spans
  induction spans with
  | nil =>
    intro i rv calls
    cases rv <;> simp [exportLoop, attemptCount]
  | cons s rest ih =>
    intro i rv calls
    simp only [exportLoop]
    rw [if_neg (not_or.mpr ⟨hn, ht⟩)]
    rw [ih, produceCount_append, produceCount_append]
    cases rv with
    | some e => simp [produceCount, attemptCount]
    | none =>
      cases hd : deliver i with
      | some e => simp [produceCount, attemptCount, hd]
      | none =>
        simp [produceCount, attemptCount, hd]
        omega

/-! Claim theorems. -/

/-- C1: once `shutdown()` has run, every subsequent `export(batch)` call
returns FAILURE immediately and issues zero produce or flush calls to the
broker client, whatever the batch holds. -/
theorem c1_export_after_shutdown (ex : KafkaExporter) (env : Env) (user : String)
    (deliver : Nat → Option String) (spans : List Span) :
    exportSpans (shutdown ex) env user deliver spans =
      (ExportOutcome.ret (some SpanExportResult.FAILURE), []) := by
  simp [exportSpans, shutdown]

theorem exportSpans_open (ex : KafkaExporter) (env : Env) (user : String)
    (deliver : Nat → Option String) (spans : List Span) (hopen : ex.closed = false) :
    ∃ node, exportSpans ex env user deliver spans =
      exportLoop ex env user node deliver spans 0 none [] := by
  refine ⟨(match spans with
    | [] => ex.local_node
    | s :: _ =>
      match s.resource_service_name with
      | some sn =>
        if sn = "" then ex.local_node else { ex.local_node with service_name := some sn }
      | none => ex.local_node), ?_⟩
  unfold exportSpans
  rw [if_neg (by simp [hopen])]

/-- C2 (amended): while the exporter is OPEN with topic and nodes configured,
export returns FAILURE exactly when the broker client would report a non-null
delivery error at some batch position and SUCCESS otherwise, and an empty
batch returns SUCCESS; but spans are published only up to and including the
first delivery error: after it the remaining spans are encoded and flushed
yet no longer given to produce, so a delivery error does short-circuit
publishing of the remaining spans. -/
theorem c2_export_batch_outcome (ex : KafkaExporter) (env : Env) (user : String)
    (deliver : Nat → Option String) (spans : List Span)
    (hopen : ex.closed = false) (hn : ex.kafkanodes ≠ []) (ht : ex.kafkatopic ≠ "") :
    ((exportSpans ex env user deliver spans).1 = ExportOutcome.ret (some SpanExportResult.FAILURE)
        ↔ ∃ j, j < spans.length ∧ (deliver j).isSome = true)
    ∧ ((exportSpans ex env user deliver spans).1 = ExportOutcome.ret (some SpanExportResult.SUCCESS)
        ↔ ¬ ∃ j, j < spans.length ∧ (deliver j).isSome = true)
    ∧ produceCount (exportSpans ex env user deliver spans).2 = attemptCount deliver 0 spans.length
    ∧ (spans = [] →
        (exportSpans ex env user deliver spans).1 = ExportOutcome.ret (some SpanExportResult.SUCCESS)) := by
  obtain ⟨node, heq⟩ := exportSpans_open ex env user deliver spans hopen
  have hiff := anyErr_eq_true_iff deliver spans.length 0
  simp only [Nat.zero_add] at hiff
  have hf := exportLoop_fst ex env user node deliver hn ht spans 0 none []
  have hc := exportLoop_produceCount ex env user node deliver hn ht spans 0 none []
  rw [heq, hf, hc]
  simp only [Option.isSome_none, Bool.false_or]
  refine ⟨?_, ?_, ?_, ?_⟩
  · rw [← hiff]
    cases hae : anyErr deliver 0 spans.length <;> simp [hae]
  · rw [← hiff]
    cases hae : anyErr deliver 0 spans.length <;> simp [hae]
  · simp [produceCount]
  · intro hsp
    subst hsp
    simp [anyErr]

/-- Witness for c2_export_batch_outcome: a concrete open configured exporter
and an all-success oracle; one span gives one produce call. -/
theorem c2_export_batch_outcome_witness :
    exporterOpen.closed = false ∧ exporterOpen.kafkanodes ≠ [] ∧ exporterOpen.kafkatopic ≠ ""
    ∧ produceCount (exportSpans exporterOpen env0 ("u") deliver0 [span1]).2 =
        attemptCount deliver0 0 1 :=
  ⟨rfl, by decide, by decide,
    (c2_export_batch_outcome exporterOpen env0 ("u") deliver0 [span1] rfl (by decide)
      (by decide)).2.2.1⟩

/-- C2 counterexample: with three spans and a delivery error at position 1,
only two produce calls happen — the third span is never published — so it is
not the case that every span in the batch is attempted. -/
theorem c2_short_circuit_counterexample :
    produceCount (exportSpans exporterOpen env0 ("u") deliverErr1 [span1, span1, span1]).2 = 2
    ∧ ([span1, span1, span1] : List Span).length = 3
    ∧ (exportSpans exporterOpen env0 ("u") deliverErr1 [span1, span1, span1]).1 =
        ExportOutcome.ret (some SpanExportResult.FAILURE) :=
  ⟨rfl, rfl, rfl⟩

/-- C3: with the exporter OPEN and the topic resolved empty, exporting a
non-empty batch does not skip the span and continue: the debug f-string of
the empty-config branch reads the attribute `self.kafka_nodes`, which is
never defined, so the call raises AttributeError before any delivery and the
whole batch is aborted. -/
theorem c3_empty_config_attr_error :
    exportSpans exporterNoTopic env0 ("u") deliver0 [span1] = (ExportOutcome.attrError, []) := rfl

/-- C4 (amended): when the span has a parent, both parent fields of the
document, `parent_id` and `parentId`, carry the parent span id in the
canonical 16-lowercase-hex-digit encoding; when there is no parent, the
`parentId` key is omitted but `parent_id` is still present and bound to
null, contrary to the claim that the parent field is omitted entirely.
Assumes the span attributes do not themselves use the two keys. -/
theorem c4_parent_linkage (enc : JsonV1Encoder) (env : Env) (user : String) (span : Span)
    (node : NodeEndpoint)
    (h1 : lastVal span.attributes ("parent_id") = none)
    (h2 : lastVal span.attributes ("parentId") = none) :
    (∀ p, span.parent = some p →
        dget (serialize enc env user span node) ("parent_id") = some (JValue.s (encode_span_id p))
        ∧ dget (serialize enc env user span node) ("parentId") = some (JValue.s (encode_span_id p))
        ∧ (encode_span_id p).length = 16)
    ∧ (span.parent = none →
        dget (serialize enc env user span node) ("parent_id") = some JValue.null
        ∧ dget (serialize enc env user span node) ("parentId") = none) := by
  have hu := dget_serialize_untouched enc env user span node ("parent_id") h1 (by decide)
    (by decide) (by decide) (by decide) (by decide) (by decide) (by decide) (by decide)
  have hp := dget_serialize_parentId enc env user span node h2
  have hlit : lastVal (literalEntries env user span) ("parent_id") =
      some (match span.parent with
        | some p => JValue.s (encode_span_id p)
        | none => JValue.null) := rfl
  constructor
  · intro p hpar
    refine ⟨?_, ?_, length_toHexPadded 16 p⟩
    · rw [hu, hlit, hpar]
    · rw [hp, hpar]
  · intro hpar
    exact ⟨by rw [hu, hlit, hpar], by rw [hp, hpar]⟩

/-- Witness for c4_parent_linkage: a span with parent 77 and no attributes. -/
theorem c4_parent_linkage_witness :
    lastVal span2.attributes ("parent_id") = none
    ∧ lastVal span2.attributes ("parentId") = none
    ∧ dget (serialize enc0 env0 ("u") span2 node0) ("parentId") =
        some (JValue.s (encode_span_id 77)) :=
  ⟨rfl, rfl, ((c4_parent_linkage enc0 env0 ("u") span2 node0 rfl rfl).1 77 rfl).2.1⟩

/-- C4 counterexample: the claim says a parentless span omits the parent
field entirely, with no null placeholder, but the document of a parentless
span binds `parent_id` to null. -/
theorem c4_parent_null_counterexample :
    span1.parent = none
    ∧ dget (serialize enc0 env0 ("u") span1 node0) ("parent_id") = some JValue.null :=
  ⟨rfl, rfl⟩

/-- C5 (amended): provided the span attributes do not themselves use the two
keys, `end_time` is bound to round(end_nanos/1000) and `duration` to
round((end_nanos - start_nanos)/1000) — the rounding of the nanosecond
difference, not the difference of the two independently rounded values —
whenever `end_time` is non-null and nonzero; both keys are absent when
`end_time` is null or zero. -/
theorem c5_end_time_duration (enc : JsonV1Encoder) (env : Env) (user : String) (span : Span)
    (node : NodeEndpoint)
    (h1 : lastVal span.attributes ("end_time") = none)
    (h2 : lastVal span.attributes ("duration") = none) :
    dget (serialize enc env user span node) ("end_time") =
      (match span.end_time with
       | some t => if t = 0 then none else some (JValue.n (nsec_to_usec_round t))
       | none => none)
    ∧ dget (serialize enc env user span node) ("duration") =
      (match span.end_time with
       | some t => if t = 0 then none else some (JValue.n (nsec_to_usec_round (t - span.start_time)))
       | none => none) :=
  ⟨dget_serialize_end_time enc env user span node h1,
   dget_serialize_duration enc env user span node h2⟩

/-- Witness for c5_end_time_duration: start 600 ns, end 1200 ns gives
duration 1 µs. -/
theorem c5_end_time_duration_witness :
    lastVal span1.attributes ("end_time") = none
    ∧ lastVal span1.attributes ("duration") = none
    ∧ dget (serialize enc0 env0 ("u") span1 node0) ("duration") = some (JValue.n 1) :=
  ⟨rfl, rfl, by
    have h := (c5_end_time_duration enc0 env0 ("u") span1 node0 rfl rfl).2
    rw [h]
    rfl⟩

/-- C5 counterexample: with start 600 ns and end 1200 ns the document binds
duration to 1 µs, while the difference of the two independently rounded
microsecond values, round(1200/1000) - round(600/1000), is 0. -/
theorem c5_duration_counterexample :
    dget (serialize enc0 env0 ("u") span1 node0) ("duration") = some (JValue.n 1)
    ∧ nsec_to_usec_round 1200 - nsec_to_usec_round 600 = 0
    ∧ (1 : Int) ≠ 0 :=
  ⟨rfl, by decide, by decide⟩

/-- C6 (amended): the kind field is always present as a formatted string of
the shape SpanKind.{name}: INTERNAL encodes to the null-kind literal
"SpanKind.None" and the remote kinds carry their literal names inside that
format, CLIENT encoding to "SpanKind.CLIENT" rather than to the bare
"CLIENT" of the claim.  Assumes the span attributes do not use the key. -/
theorem c6_kind_field (enc : JsonV1Encoder) (env : Env) (user : String) (span : Span)
    (node : NodeEndpoint) (h : lastVal span.attributes ("kind") = none) :
    dget (serialize enc env user span node) ("kind") =
      some (JValue.s ("SpanKind." ++ pyFormatOpt (SPAN_KIND_MAP span.kind)))
    ∧ (span.kind = SpanKind.INTERNAL →
        dget (serialize enc env user span node) ("kind") = some (JValue.s ("SpanKind.None")))
    ∧ (span.kind = SpanKind.CLIENT →
        dget (serialize enc env user span node) ("kind") = some (JValue.s ("SpanKind.CLIENT"))) := by
  have hu := dget_serialize_untouched enc env user span node ("kind") h (by decide) (by decide)
    (by decide) (by decide) (by decide) (by decide) (by decide) (by decide)
  have hlit : lastVal (literalEntries env user span) ("kind") =
      some (JValue.s ("SpanKind." ++ pyFormatOpt (SPAN_KIND_MAP span.kind))) := rfl
  refine ⟨hu.trans hlit, ?_, ?_⟩
  · intro hk
    rw [hu, hlit, hk]
    rfl
  · intro hk
    rw [hu, hlit, hk]
    rfl

/-- Witness for c6_kind_field: a CLIENT span with no attributes. -/
theorem c6_kind_field_witness :
    lastVal span1.attributes ("kind") = none
    ∧ dget (serialize enc0 env0 ("u") span1 node0) ("kind") =
        some (JValue.s ("SpanKind.CLIENT")) :=
  ⟨rfl, (c6_kind_field enc0 env0 ("u") span1 node0 rfl).2.2 rfl⟩

/-- C6 counterexample: a CLIENT span encodes its kind as the string
"SpanKind.CLIENT", not as the bare literal "CLIENT" the claim gives. -/
theorem c6_kind_counterexample :
    dget (serialize enc0 env0 ("u") span1 node0) ("kind") = some (JValue.s ("SpanKind.CLIENT"))
    ∧ ("SpanKind.CLIENT" : String) ≠ "CLIENT" :=
  ⟨rfl, by decide⟩

/-- C7: for every environment-derived contextual key (end-user, site,
deployment environment) that is also explicitly set as a span attribute, the
document carries the attribute value (after the tag coercion), not the
environment default: the literal entries write the environment defaults
first and the final attribute update overlays them. -/
theorem c7_attr_overrides_env (enc : JsonV1Encoder) (env : Env) (user : String) (span : Span)
    (node : NodeEndpoint) (k : String) (v : String)
    (_hk : k = "enduser.id" ∨ k = "location.site" ∨ k = "deployment.environment")
    (hv : lastVal span.attributes k = some v) :
    dget (serialize enc env user span node) k =
      some (JValue.s (truncateTag enc.max_tag_value_length v)) :=
  dget_serialize_attr enc env user span node k v hv

/-- Witness for c7_attr_overrides_env: a span that sets `location.site` to
"sjc" gets that value in the document, not the environment default. -/
theorem c7_attr_overrides_env_witness :
    (("location.site" : String) = "enduser.id" ∨ ("location.site" : String) = "location.site"
      ∨ ("location.site" : String) = "deployment.environment")
    ∧ lastVal span3.attributes ("location.site") = some ("sjc")
    ∧ dget (serialize enc0 env0 ("u") span3 node0) ("location.site") = some (JValue.s ("sjc")) :=
  ⟨Or.inr (Or.inl rfl), rfl,
    c7_attr_overrides_env enc0 env0 ("u") span3 node0 ("location.site") ("sjc")
      (Or.inr (Or.inl rfl)) rfl⟩

/-- C8 (amended): at construction the explicit constructor argument wins
whenever it is not None — even when it is empty — and only with no explicit
argument does resolution fall to the environment variable when that is
non-empty and to the hard-coded default otherwise; the environment form of
the node list is split on commas with each element trimmed of whitespace. -/
theorem c8_config_resolution (argT : Option String) (argN : Option (List String))
    (envT envN : Option String) (mt : Option Nat) (node : NodeEndpoint) :
    (mkKafkaExporter argT argN envT envN mt node).kafkatopic =
      (match argT with
       | some t => t
       | none =>
         match envT with
         | some e => if e = "" then DEFAULT_KAFKATOPIC else e
         | none => DEFAULT_KAFKATOPIC)
    ∧ (mkKafkaExporter argT argN envT envN mt node).kafkanodes =
      (match argN with
       | some ns => ns
       | none =>
         ((match envN with
           | some e => if e = "" then DEFAULT_KAFKANODES else e
           | none => DEFAULT_KAFKANODES).splitOn (",")).map String.trim)
    ∧ (mkKafkaExporter argT argN envT envN mt node).closed = false := by
  refine ⟨?_, ?_, rfl⟩
  · cases argT with
    | some t => rfl
    | none =>
      cases envT with
      | some e => rfl
      | none => rfl
  · cases argN with
    | some ns => rfl
    | none =>
      cases envN with
      | some e => rfl
      | none => rfl

/-- C8 counterexample: an explicitly passed empty topic is kept, while the
first-non-empty rule of the claim would resolve to the non-empty environment
value instead. -/
theorem c8_resolution_counterexample :
    (mkKafkaExporter (some ("")) none (some ("remote-topic")) none none node0).kafkatopic = ""
    ∧ specFirstNonEmptyStr (some ("")) (some ("remote-topic")) DEFAULT_KAFKATOPIC = "remote-topic"
    ∧ ("" : String) ≠ "remote-topic" :=
  ⟨rfl, rfl, by decide⟩

/-- C9 (amended): every document contains the keys name, trace_id, span_id
and start_time; provided the span attributes do not themselves use the two
timing keys, end_time and duration are present iff the span end time is set
and nonzero — Python truthiness means a span ended exactly at the zero
timestamp gets neither field. -/
theorem c9_minimum_keys (enc : JsonV1Encoder) (env : Env) (user : String) (span : Span)
    (node : NodeEndpoint)
    (h1 : lastVal span.attributes ("end_time") = none)
    (h2 : lastVal span.attributes ("duration") = none) :
    hasKey (serialize enc env user span node) ("name") = true
    ∧ hasKey (serialize enc env user span node) ("trace_id") = true
    ∧ hasKey (serialize enc env user span node) ("span_id") = true
    ∧ hasKey (serialize enc env user span node) ("start_time") = true
    ∧ (hasKey (serialize enc env user span node) ("end_time") = true
        ↔ ∃ t, span.end_time = some t ∧ t ≠ 0)
    ∧ (hasKey (serialize enc env user span node) ("duration") = true
        ↔ ∃ t, span.end_time = some t ∧ t ≠ 0) := by
  refine ⟨?_, ?_, ?_, ?_, ?_, ?_⟩
  · exact isSome_dget_serialize_of_literal enc env user span node ("name") rfl
  · exact isSome_dget_serialize_of_literal enc env user span node ("trace_id") rfl
  · exact isSome_dget_serialize_of_literal enc env user span node ("span_id") rfl
  · exact isSome_dget_serialize_of_literal enc env user span node ("start_time") rfl
  · simp only [hasKey]
    rw [dget_serialize_end_time enc env user span node h1]
    cases het : span.end_time with
    | none => simp
    | some t =>
      by_cases ht : t = 0
      · simp [ht]
      · simp [ht]
  · simp only [hasKey]
    rw [dget_serialize_duration enc env user span node h2]
    cases het : span.end_time with
    | none => simp
    | some t =>
      by_cases ht : t = 0
      · simp [ht]
      · simp [ht]

/-- Witness for c9_minimum_keys: the attribute-free span1, ended at 1200 ns,
has the four minimum keys and an end_time key. -/
theorem c9_minimum_keys_witness :
    lastVal span1.attributes ("end_time") = none
    ∧ lastVal span1.attributes ("duration") = none
    ∧ hasKey (serialize enc0 env0 ("u") span1 node0) ("name") = true
    ∧ hasKey (serialize enc0 env0 ("u") span1 node0) ("end_time") = true :=
  ⟨rfl, rfl, (c9_minimum_keys enc0 env0 ("u") span1 node0 rfl rfl).1,
    ((c9_minimum_keys enc0 env0 ("u") span1 node0 rfl rfl).2.2.2.2.1).mpr
      ⟨1200, rfl, by decide⟩⟩

/-- C9 counterexample: a span whose end time is set to the zero timestamp has
completed, yet its document carries neither end_time nor duration. -/
theorem c9_end_time_zero_counterexample :
    spanZeroEnd.end_time = some 0
    ∧ dget (serialize enc0 env0 ("u") spanZeroEnd node0) ("end_time") = none
    ∧ dget (serialize enc0 env0 ("u") spanZeroEnd node0) ("duration") = none :=
  ⟨rfl, rfl, rfl⟩

/-- C10: every document carries the keys enduser.id (the process user
lookup), location.site (environment variable SITE with default "unknown")
and deployment.environment (environment variable INSTALLTYPE with default
"staging"); when the span carries no attributes for these keys the values
are exactly those environment-derived ones. -/
theorem c10_contextual_keys (enc : JsonV1Encoder) (env : Env) (user : String) (span : Span)
    (node : NodeEndpoint)
    (h1 : lastVal span.attributes ("enduser.id") = none)
    (h2 : lastVal span.attributes ("location.site") = none)
    (h3 : lastVal span.attributes ("deployment.environment") = none) :
    dget (serialize enc env user span node) ("enduser.id") = some (JValue.s user)
    ∧ dget (serialize enc env user span node) ("location.site") =
        some (JValue.s ((env ("SITE")).getD ("unknown")))
    ∧ dget (serialize enc env user span node) ("deployment.environment") =
        some (JValue.s ((env ("INSTALLTYPE")).getD ("staging"))) := by
  have hu1 := dget_serialize_untouched enc env user span node ("enduser.id") h1 (by decide)
    (by decide) (by decide) (by decide) (by decide) (by decide) (by decide) (by decide)
  have hu2 := dget_serialize_untouched enc env user span node ("location.site") h2 (by decide)
    (by decide) (by decide) (by decide) (by decide) (by decide) (by decide) (by decide)
  have hu3 := dget_serialize_untouched enc env user span node ("deployment.environment") h3
    (by decide) (by decide) (by decide) (by decide) (by decide) (by decide) (by decide)
    (by decide)
  exact ⟨hu1.trans rfl, hu2.trans rfl, hu3.trans rfl⟩

/-- Witness for c10_contextual_keys: the attribute-free span1 in an empty
environment with process user alice. -/
theorem c10_contextual_keys_witness :
    lastVal span1.attributes ("enduser.id") = none
    ∧ lastVal span1.attributes ("location.site") = none
    ∧ lastVal span1.attributes ("deployment.environment") = none
    ∧ dget (serialize enc0 env0 ("alice") span1 node0) ("enduser.id") = some (JValue.s ("alice"))
    ∧ dget (serialize enc0 env0 ("alice") span1 node0) ("location.site") =
        some (JValue.s ("unknown"))
    ∧ dget (serialize enc0 env0 ("alice") span1 node0) ("deployment.environment") =
        some (JValue.s ("staging")) := by
  have h := c10_contextual_keys enc0 env0 ("alice") span1 node0 rfl rfl rfl
  exact ⟨rfl, rfl, rfl, h.1, h.2.1, h.2.2⟩

end KafkaJson
